import Mathlib

/-!
# Docker runtime controller of colima (`environment/container/docker/docker.go`)

A shallow embedding of the `dockerRuntime` lifecycle operations.  Every call
that leaves the controller (guest command, host command, `os.Stat`, the
package helpers defined outside `docker.go`) is recorded in a trace, and its
outcome is supplied by an oracle that sees the whole history of calls made so
far.  A Go `error` is `Option GoError`, `none` being `nil`.
-/

namespace Docker

/-- A non-nil Go `error`, identified by its message. -/
abbrev GoError := String

/-- One observable call made by the controller. -/
inductive Call where
  /-- The call `d.guest.Run(args...)`. -/
  | guestRun (args : List String)
  /-- The call `d.guest.Restart()`. -/
  | guestRestart
  /-- The call `d.guest.User()`. -/
  | guestUser
  /-- The call `d.host.Run(args...)`. -/
  | hostRun (args : List String)
  /-- The call `d.host.RunOutput(args...)`. -/
  | hostRunOutput (args : List String)
  /-- The call `os.Stat(path)`. -/
  | osStat (path : String)
  /-- The call `d.setupSocketSymlink()`. -/
  | setupSocketSymlink
  /-- The call `d.setupInVM()`. -/
  | setupInVM
  /-- The call `d.fixUserPermission()`. -/
  | fixUserPermission
  /-- The call `createSocketForwardingScript(user)`. -/
  | createSocketForwardingScript (user : String)
  /-- The call `createLaunchdScript(launchd)`. -/
  | createLaunchdScript (launchd : String)
  deriving DecidableEq, Repr

/-- The calls made so far, oldest first. -/
abbrev Trace := List Call

/-- The interface `environment.HostActions`, as far as `docker.go` uses it. -/
structure HostActions where
  /-- Outcome of `Run(args...)` after the given history. -/
  Run : Trace → List String → Option GoError
  /-- Outcome of `RunOutput(args...)` after the given history. -/
  RunOutput : Trace → List String → String × Option GoError

/-- The interface `environment.GuestActions`, as far as `docker.go` uses it. -/
structure GuestActions where
  /-- Outcome of `Run(args...)` after the given history. -/
  Run : Trace → List String → Option GoError
  /-- Outcome of `Restart()` after the given history. -/
  Restart : Trace → Option GoError
  /-- Outcome of `User()` after the given history. -/
  User : Trace → String × Option GoError

/-- What `docker.go` uses but does not define: `config.AppName`, `os.Stat`,
`launchAgent.File` and the helpers of package `docker` that live in other
files.  Each helper is one opaque call whose outcome may depend on the
history. -/
structure Deps where
  /-- The value of `config.AppName()`. -/
  AppName : String
  /-- The method `launchAgent.File`, from the package identifier to a path. -/
  File : String → String
  /-- The call `os.Stat(path)`: the `IsDir()` bit of the result and the error. -/
  Stat : Trace → String → Bool × Option GoError
  /-- Outcome of `d.setupSocketSymlink()`. -/
  setupSocketSymlink : Trace → Option GoError
  /-- Outcome of `d.setupInVM()`. -/
  setupInVM : Trace → Option GoError
  /-- Outcome of `d.fixUserPermission()`. -/
  fixUserPermission : Trace → Option GoError
  /-- Outcome of `createSocketForwardingScript(user)`. -/
  createSocketForwardingScript : Trace → String → Option GoError
  /-- Outcome of `createLaunchdScript(launchd)`. -/
  createLaunchdScript : Trace → String → Option GoError

/-- A zero-argument fallible operation `func() error`, acting on the trace. -/
abbrev Op := Trace → Option GoError × Trace

/-- Modelled from the spec: the `Action` of `cli.CommandChain` (package `cli`
lies outside `docker.go`), a label-tagged unit of work: the
operation and the stage label in force when it was added. -/
structure Action where
  /-- The label set by the most recent `Stage` call, empty when there is none. -/
  stage : String
  /-- The operation itself. -/
  f : Op

/-- Modelled from the spec: the chain builder `cli.ActiveCommandChain` returned
by `Init`, an ordered sequence of actions and the current stage label. -/
structure ActiveCommandChain where
  /-- Name of the chain, given to `cli.New`. -/
  name : String
  /-- The steps, in insertion order. -/
  funcs : List Action
  /-- The label attached to the steps added from now on. -/
  lastStage : String

/-- Modelled from the spec: `CommandChain.Init`, a fresh chain with no step
and no stage label; a new chain is built by every top-level operation. -/
def Init (name : String) : ActiveCommandChain :=
  { name := name, funcs := [], lastStage := "" }

/-- Modelled from the spec: `ActiveCommandChain.Stage`, which sets the label
attached to the steps added afterwards and affects no earlier step. -/
def ActiveCommandChain.Stage (a : ActiveCommandChain) (s : String) : ActiveCommandChain :=
  { a with lastStage := s }

/-- Modelled from the spec: `ActiveCommandChain.Add`, which appends one step
to the end of the chain. -/
def ActiveCommandChain.Add (a : ActiveCommandChain) (f : Op) : ActiveCommandChain :=
  { a with funcs := a.funcs ++ [{ stage := a.lastStage, f := f }] }

/-- Modelled from the spec: the loop of `ActiveCommandChain.Exec`, running the
steps strictly in order and stopping at the first one that reports failure,
whose failure is returned unchanged. -/
def execFrom : List Action → Op
  | [], t => (none, t)
  | s :: rest, t =>
    match s.f t with
    | (none, t1) => execFrom rest t1
    | (some e, t1) => (some e, t1)

/-- Modelled from the spec: `ActiveCommandChain.Exec`; the stage labels have no
effect on execution. -/
def ActiveCommandChain.Exec (a : ActiveCommandChain) : Op :=
  execFrom a.funcs

/-- Name is container runtime name. -/
def Name : String := "docker"

/-- The struct `dockerRuntime`; the embedded `cli.CommandChain` is kept as the
name it was created with, the `launchAgent` as its underlying string. -/
structure dockerRuntime where
  /-- Host-side command execution. -/
  host : HostActions
  /-- Guest-side command execution. -/
  guest : GuestActions
  /-- The embedded chain factory `cli.New(Name)`. -/
  CommandChain : String
  /-- The package identifier `launchAgent(launchdPkg)`. -/
  launchd : String

/-- The constructor `newRuntime`. -/
def newRuntime (x : Deps) (host : HostActions) (guest : GuestActions) : dockerRuntime :=
  let launchdPkg := "com.abiosoft." ++ x.AppName
  { host := host
    guest := guest
    CommandChain := Name
    launchd := launchdPkg }

/-- The method `dockerRuntime.Name`. -/
def dockerRuntime.Name (_d : dockerRuntime) : String := Docker.Name

/-- The call `d.guest.Run(args...)`, recorded in the trace. -/
def dockerRuntime.guestRun (d : dockerRuntime) (args : List String) : Op :=
  fun t => (d.guest.Run t args, t ++ [Call.guestRun args])

/-- The call `d.host.Run(args...)`, recorded in the trace. -/
def dockerRuntime.hostRun (d : dockerRuntime) (args : List String) : Op :=
  fun t => (d.host.Run t args, t ++ [Call.hostRun args])

/-- The call `d.guest.Restart()`, recorded in the trace. -/
def dockerRuntime.guestRestart (d : dockerRuntime) : Op :=
  fun t => (d.guest.Restart t, t ++ [Call.guestRestart])

/-- The call `d.guest.User()`, recorded in the trace. -/
def dockerRuntime.guestUser (d : dockerRuntime) (t : Trace) :
    (String × Option GoError) × Trace :=
  (d.guest.User t, t ++ [Call.guestUser])

/-- Arguments of the installation probe. -/
def installedProbe : List String := ["command", "-v", "docker"]

/-- Arguments of the permission probe. -/
def permissionProbe : List String :=
  ["sh", "-c", "getent group docker | grep \"\\b$\x7bUSER\x7d\\b\""]

/-- The method `dockerRuntime.isInstalled`: `err == nil` of the probe. -/
def dockerRuntime.isInstalled (d : dockerRuntime) (t : Trace) : Bool × Trace :=
  let (err, t1) := d.guestRun installedProbe t
  (err.isNone, t1)

/-- The method `dockerRuntime.isUserPermissionFixed`: `err == nil` of the probe. -/
def dockerRuntime.isUserPermissionFixed (d : dockerRuntime) (t : Trace) : Bool × Trace :=
  let (err, t1) := d.guestRun permissionProbe t
  (err.isNone, t1)

/-- The step `d.setupSocketSymlink`, recorded in the trace. -/
def setupSocketSymlink (x : Deps) : Op :=
  fun t => (x.setupSocketSymlink t, t ++ [Call.setupSocketSymlink])

/-- The step `d.setupInVM`, recorded in the trace. -/
def setupInVM (x : Deps) : Op :=
  fun t => (x.setupInVM t, t ++ [Call.setupInVM])

/-- The step `d.fixUserPermission`, recorded in the trace. -/
def fixUserPermission (x : Deps) : Op :=
  fun t => (x.fixUserPermission t, t ++ [Call.fixUserPermission])

/-- The call `createSocketForwardingScript(user)`, recorded in the trace. -/
def createSocketForwardingScript (x : Deps) (user : String) : Op :=
  fun t => (x.createSocketForwardingScript t user, t ++ [Call.createSocketForwardingScript user])

/-- The call `createLaunchdScript(launchd)`, recorded in the trace. -/
def createLaunchdScript (x : Deps) (launchd : String) : Op :=
  fun t => (x.createLaunchdScript t launchd, t ++ [Call.createLaunchdScript launchd])

/-- The first unconditional step of `Provision`: resolve the guest user, then
create the socket-forwarding script for that user. -/
def forwardingStep (x : Deps) (d : dockerRuntime) : Op :=
  fun t =>
    match d.guestUser t with
    | ((_, some err), t1) => (some err, t1)
    | ((user, none), t1) => createSocketForwardingScript x user t1

/-- The method `dockerRuntime.Provision`. -/
def dockerRuntime.Provision (x : Deps) (d : dockerRuntime) (t : Trace) :
    Option GoError × Trace :=
  let a := Init d.CommandChain
  let a := a.Stage "provisioning"
  -- check installation
  let (installed, t1) := d.isInstalled t
  let a :=
    if !installed then
      (((a.Stage "setting up socket").Add (setupSocketSymlink x)).Stage
        "provisioning in VM").Add (setupInVM x)
    else a
  -- check user permission
  let (fixed, t2) := d.isUserPermissionFixed t1
  let a :=
    if !fixed then
      ((a.Add (fixUserPermission x)).Stage "restarting VM to complete setup").Add d.guestRestart
    else a
  -- socket file/launchd
  let a := a.Add (forwardingStep x d)
  let a := a.Add (createLaunchdScript x d.launchd)
  a.Exec t2

/-- The chain built by `Start` (lines 87-95): guest start, then host load. -/
def startChain (x : Deps) (d : dockerRuntime) : ActiveCommandChain :=
  let a := Init d.CommandChain
  let a := a.Stage "starting"
  let a := a.Add (d.guestRun ["sudo", "service", "docker", "start"])
  let a := a.Add (d.hostRun ["launchctl", "load", x.File d.launchd])
  a

/-- The method `dockerRuntime.Start`: build the chain, then `a.Exec()`. -/
def dockerRuntime.Start (x : Deps) (d : dockerRuntime) (t : Trace) : Option GoError × Trace :=
  (startChain x d).Exec t

/-- The first step of `Stop`: probe the guest service and return `nil` when
the probe reports an error, otherwise issue the stop command. -/
def stopStep (d : dockerRuntime) : Op :=
  fun t =>
    match d.guestRun ["service", "docker", "status"] t with
    | (some _, t1) => (none, t1)
    | (none, t1) => d.guestRun ["sudo", "service", "docker", "stop"] t1

/-- The chain built by `Stop` (lines 101-112): guest stop step, then host unload. -/
def stopChain (x : Deps) (d : dockerRuntime) : ActiveCommandChain :=
  let a := Init d.CommandChain
  let a := a.Stage "stopping"
  let a := a.Add (stopStep d)
  let a := a.Add (d.hostRun ["launchctl", "unload", x.File d.launchd])
  a

/-- The method `dockerRuntime.Stop`: build the chain, then `a.Exec()`. -/
def dockerRuntime.Stop (x : Deps) (d : dockerRuntime) (t : Trace) : Option GoError × Trace :=
  (stopChain x d).Exec t

/-- The chain built by `Teardown` (lines 118-130) once `os.Stat` has answered;
`present` is the test `err == nil && !stat.IsDir()`. -/
def teardownChain (x : Deps) (d : dockerRuntime) (present : Bool) : ActiveCommandChain :=
  let a := Init d.CommandChain
  let a := a.Stage "deleting"
  -- only host configurations should be removed
  let a :=
    if present then
      (a.Add (d.hostRun ["launchctl", "unload", x.File d.launchd])).Add
        (d.hostRun ["rm", "-rf", x.File d.launchd])
    else a
  a

/-- The test of `Teardown` on the answer of `os.Stat` after history `t`:
`err == nil && !stat.IsDir()`. -/
def descriptorPresent (x : Deps) (d : dockerRuntime) (t : Trace) : Bool :=
  let (stat, err) := x.Stat t (x.File d.launchd)
  err.isNone && !stat

/-- The method `dockerRuntime.Teardown`: `os.Stat` is called while the chain
is built, before any step runs. -/
def dockerRuntime.Teardown (x : Deps) (d : dockerRuntime) (t : Trace) :
    Option GoError × Trace :=
  let present := descriptorPresent x d t
  let t1 := t ++ [Call.osStat (x.File d.launchd)]
  (teardownChain x d present).Exec t1

/-- The chain that `Provision` builds when its two probes have answered
`installed` and `fixed`. -/
def provisionChain (x : Deps) (d : dockerRuntime) (installed fixed : Bool) :
    ActiveCommandChain :=
  let a := Init d.CommandChain
  let a := a.Stage "provisioning"
  let a :=
    if !installed then
      (((a.Stage "setting up socket").Add (setupSocketSymlink x)).Stage
        "provisioning in VM").Add (setupInVM x)
    else a
  let a :=
    if !fixed then
      ((a.Add (fixUserPermission x)).Stage "restarting VM to complete setup").Add d.guestRestart
    else a
  let a := a.Add (forwardingStep x d)
  let a := a.Add (createLaunchdScript x d.launchd)
  a

/-- The method `dockerRuntime.Dependencies`. -/
def dockerRuntime.Dependencies (_d : dockerRuntime) : List String := ["docker"]

/-- Arguments of the version query. -/
def versionQuery : List String :=
  ["docker", "version", "--format",
    "client: v\x7b\x7b.Client.Version\x7d\x7d\x7b\x7bprintf \"\\n\"\x7d\x7dserver: v\x7b\x7b.Server.Version\x7d\x7d"]

/-- The method `dockerRuntime.Version`: the error of the query is discarded. -/
def dockerRuntime.Version (d : dockerRuntime) (t : Trace) : String × Trace :=
  let (version, _) := d.host.RunOutput t versionQuery
  (version, t ++ [Call.hostRunOutput versionQuery])

/-! ## Vocabulary of the statements -/

/-- The two conditional pairs of provisioning steps, as the rule table of the
specification lists them. -/
def conditionalSteps (installed fixed : Bool) : List Call :=
  (if installed then [] else [Call.setupSocketSymlink, Call.setupInVM]) ++
    (if fixed then [] else [Call.fixUserPermission, Call.guestRestart])

/-- The step sequence of the rule table: the conditional pairs, then the two
unconditional steps, the first of which resolves the guest user. -/
def provisionSteps (installed fixed : Bool) (user launchd : String) : List Call :=
  conditionalSteps installed fixed ++
    [Call.guestUser, Call.createSocketForwardingScript user, Call.createLaunchdScript launchd]

/-- Every step that `Provision` may add succeeds, whatever the history. -/
def StepsSucceed (x : Deps) (d : dockerRuntime) : Prop :=
  (∀ t, x.setupSocketSymlink t = none) ∧ (∀ t, x.setupInVM t = none) ∧
  (∀ t, x.fixUserPermission t = none) ∧ (∀ t, d.guest.Restart t = none) ∧
  (∀ t, (d.guest.User t).2 = none) ∧ (∀ t u, x.createSocketForwardingScript t u = none) ∧
  (∀ t l, x.createLaunchdScript t l = none)

/-- Whether a call is one of the steps of the provisioning chain. -/
def Call.isProvisionStep : Call → Bool
  | Call.setupSocketSymlink => true
  | Call.setupInVM => true
  | Call.fixUserPermission => true
  | Call.guestRestart => true
  | Call.guestUser => true
  | Call.createSocketForwardingScript _ => true
  | Call.createLaunchdScript _ => true
  | _ => false

/-- Whether a call goes through the host command interface. -/
def Call.isHost : Call → Bool
  | Call.hostRun _ => true
  | Call.hostRunOutput _ => true
  | _ => false

/-- Whether a call goes through the guest command interface. -/
def Call.isGuest : Call → Bool
  | Call.guestRun _ => true
  | Call.guestRestart => true
  | Call.guestUser => true
  | _ => false

/-- The guest status probe issued by `Stop`. -/
def statusCall : Call := Call.guestRun ["service", "docker", "status"]

/-- The guest stop command issued by `Stop`. -/
def stopCall : Call := Call.guestRun ["sudo", "service", "docker", "stop"]

/-- The guest start command issued by `Start`. -/
def startCall : Call := Call.guestRun ["sudo", "service", "docker", "start"]

/-- The host command `launchctl load <descriptor file>`. -/
def loadCall (x : Deps) (d : dockerRuntime) : Call :=
  Call.hostRun ["launchctl", "load", x.File d.launchd]

/-- The host command `launchctl unload <descriptor file>`. -/
def unloadCall (x : Deps) (d : dockerRuntime) : Call :=
  Call.hostRun ["launchctl", "unload", x.File d.launchd]

/-- The host command `rm -rf <descriptor file>`. -/
def removeCall (x : Deps) (d : dockerRuntime) : Call :=
  Call.hostRun ["rm", "-rf", x.File d.launchd]

/-- An operation only ever appends calls satisfying `P` to the trace. -/
def Emits (P : Call → Bool) (f : Op) : Prop :=
  ∀ t, ∃ s, (f t).2 = t ++ s ∧ ∀ c ∈ s, P c = true

/-! ## Concrete hosts and guests -/

/-- A guest whose `Run` fails with `exit status 1` exactly on the listed
argument vectors; `Restart` succeeds and `User` answers `user`. -/
def guestFailingOn (bad : List (List String)) : GuestActions :=
  { Run := fun _ args => if args ∈ bad then some "exit status 1" else none
    Restart := fun _ => none
    User := fun _ => ("user", none) }

/-- A host whose `Run` fails with `exit status 1` exactly on the listed
argument vectors; `RunOutput` fails and returns the text `out` alongside. -/
def hostFailingOn (bad : List (List String)) (out : String) : HostActions :=
  { Run := fun _ args => if args ∈ bad then some "exit status 1" else none
    RunOutput := fun _ _ => (out, some "exit status 1") }

/-- Dependencies for the application `colima` whose helpers all succeed; the
descriptor file exists exactly when `present` holds. -/
def colimaDeps (present : Bool) : Deps :=
  { AppName := "colima"
    File := fun pkg => "/Library/LaunchAgents/" ++ pkg ++ ".plist"
    Stat := fun _ _ => if present then (false, none) else (false, some "no such file or directory")
    setupSocketSymlink := fun _ => none
    setupInVM := fun _ => none
    fixUserPermission := fun _ => none
    createSocketForwardingScript := fun _ _ => none
    createLaunchdScript := fun _ _ => none }

/-- The runtime built by `newRuntime` for the application `colima`. -/
def colimaRuntime (hostBad guestBad : List (List String)) : dockerRuntime :=
  newRuntime (colimaDeps true) (hostFailingOn hostBad "") (guestFailingOn guestBad)

/-- A guest on which every command fails, the restart included. -/
def brokenGuest : GuestActions :=
  { Run := fun _ _ => some "exit status 1"
    Restart := fun _ => some "restart failed"
    User := fun _ => ("user", none) }

/-- The runtime built by `newRuntime` on the broken guest. -/
def brokenRuntime : dockerRuntime :=
  newRuntime (colimaDeps true) (hostFailingOn [] "") brokenGuest

/-- The runtime built by `newRuntime` on a host whose version query fails after
printing the client line. -/
def truncatedVersionRuntime : dockerRuntime :=
  newRuntime (colimaDeps true) (hostFailingOn [] "client: v20.10.8") (guestFailingOn [])

/-! # Theorems -/

/-! ## The action chain -/

/-- Running a chain whose prefix succeeds and whose next step fails stops at
that step, whatever follows it. -/
theorem execFrom_stops (pre post : List Action) (s : Action) (t t1 t2 : Trace) (e : GoError)
    (hpre : execFrom pre t = (none, t1)) (hs : s.f t1 = (some e, t2)) :
    execFrom (pre ++ s :: post) t = (some e, t2) := by
  induction pre generalizing t with
  | nil =>
    simp only [execFrom, Prod.mk.injEq, true_and] at hpre
    subst hpre
    simp [execFrom, hs]
  | cons p ps ih =>
    simp only [List.cons_append, execFrom] at hpre ⊢
    rcases hp : p.f t with ⟨r, t3⟩
    rw [hp] at hpre
    cases r with
    | none => exact ih t3 hpre
    | some e3 => simp at hpre

/-- A list splits around its `k`-th element. -/
theorem split_at_index {α : Type} (l : List α) (k : Nat) (s : α) (h : l[k]? = some s) :
    l = l.take k ++ s :: l.drop (k + 1) := by
  induction l generalizing k with
  | nil => simp at h
  | cons a as ih =>
    cases k with
    | zero => simp at h; simp [h]
    | succ n =>
      simp only [List.getElem?_cons_succ] at h
      simpa using ih n h

/-- The equation of `Provision`: the two probes first, then the chain chosen by
their verdicts. -/
theorem Provision_eq (x : Deps) (d : dockerRuntime) (t : Trace) :
    d.Provision x t =
      (provisionChain x d (d.guest.Run t installedProbe).isNone
        (d.guest.Run (t ++ [Call.guestRun installedProbe]) permissionProbe).isNone).Exec
        (t ++ [Call.guestRun installedProbe, Call.guestRun permissionProbe]) := by
  simp only [dockerRuntime.Provision, provisionChain, dockerRuntime.isInstalled,
    dockerRuntime.isUserPermissionFixed, dockerRuntime.guestRun, List.append_assoc,
    List.singleton_append]

/-- The equation of `Stop`. -/
theorem Stop_eq (x : Deps) (d : dockerRuntime) (t : Trace) :
    d.Stop x t =
      match d.guest.Run t ["service", "docker", "status"] with
      | some _ => (d.host.Run (t ++ [statusCall]) ["launchctl", "unload", x.File d.launchd],
          t ++ [statusCall, unloadCall x d])
      | none =>
        match d.guest.Run (t ++ [statusCall]) ["sudo", "service", "docker", "stop"] with
        | some e => (some e, t ++ [statusCall, stopCall])
        | none =>
          (d.host.Run (t ++ [statusCall, stopCall]) ["launchctl", "unload", x.File d.launchd],
            t ++ [statusCall, stopCall, unloadCall x d]) := by
  simp only [dockerRuntime.Stop, stopChain, ActiveCommandChain.Exec, ActiveCommandChain.Add,
    ActiveCommandChain.Stage, Init, List.nil_append, List.singleton_append, execFrom,
    dockerRuntime.guestRun, dockerRuntime.hostRun, stopStep, statusCall, stopCall, unloadCall]
  cases d.guest.Run t ["service", "docker", "status"] with
  | some e =>
    simp only [List.append_assoc, List.singleton_append]
    cases d.host.Run (t ++ [Call.guestRun ["service", "docker", "status"]])
      ["launchctl", "unload", x.File d.launchd] <;> rfl
  | none =>
    simp only []
    cases d.guest.Run (t ++ [Call.guestRun ["service", "docker", "status"]])
      ["sudo", "service", "docker", "stop"] with
    | some e => simp
    | none =>
      simp only [List.append_assoc, List.singleton_append]
      cases d.host.Run (t ++ Call.guestRun ["service", "docker", "status"] ::
        [Call.guestRun ["sudo", "service", "docker", "stop"]])
        ["launchctl", "unload", x.File d.launchd] <;> rfl

/-- The equation of `Teardown`. -/
theorem Teardown_eq (x : Deps) (d : dockerRuntime) (t : Trace) :
    d.Teardown x t =
      (teardownChain x d (descriptorPresent x d t)).Exec (t ++ [Call.osStat (x.File d.launchd)]) := by
  rfl

/-! ## Provision -/

/-- The forwarding step when the guest user resolves: the script is created
for that user. -/
theorem forwardingStep_resolved (x : Deps) (d : dockerRuntime) (t : Trace)
    (h : (d.guest.User t).2 = none) :
    forwardingStep x d t =
      (x.createSocketForwardingScript (t ++ [Call.guestUser]) (d.guest.User t).1,
        t ++ [Call.guestUser, Call.createSocketForwardingScript (d.guest.User t).1]) := by
  rcases hu : d.guest.User t with ⟨u, e⟩
  rw [hu] at h
  simp only at h
  subst h
  simp [forwardingStep, dockerRuntime.guestUser, createSocketForwardingScript, hu]

/-- C1. When every step succeeds, `Provision` issues its two probes and then
executes exactly the steps of the rule table, in order: the symlink and the
install steps only when the installation probe failed, the permission fix and
the guest restart only when the permission probe failed, then always the
forwarding script for the guest's current user and the launchd descriptor; it
returns success.  Both probes failing gives all six steps, both succeeding
gives the last two only. -/
theorem Provision_executes_rule_table (x : Deps) (d : dockerRuntime) (t : Trace)
    (h : StepsSucceed x d) :
    d.Provision x t =
      (none, t ++ [Call.guestRun installedProbe, Call.guestRun permissionProbe] ++
        provisionSteps (d.guest.Run t installedProbe).isNone
          (d.guest.Run (t ++ [Call.guestRun installedProbe]) permissionProbe).isNone
          (d.guest.User (t ++ [Call.guestRun installedProbe, Call.guestRun permissionProbe] ++
            conditionalSteps (d.guest.Run t installedProbe).isNone
              (d.guest.Run (t ++ [Call.guestRun installedProbe]) permissionProbe).isNone)).1
          d.launchd) ∧
    (∀ u l, provisionSteps false false u l =
      [Call.setupSocketSymlink, Call.setupInVM, Call.fixUserPermission, Call.guestRestart,
        Call.guestUser, Call.createSocketForwardingScript u, Call.createLaunchdScript l]) ∧
    (∀ u l, provisionSteps true true u l =
      [Call.guestUser, Call.createSocketForwardingScript u, Call.createLaunchdScript l]) := by
  obtain ⟨h1, h2, h3, h4, h5, h6, h7⟩ := h
  refine ⟨?_, fun _ _ => rfl, fun _ _ => rfl⟩
  rw [Provision_eq]
  cases (d.guest.Run t installedProbe).isNone <;>
    cases (d.guest.Run (t ++ [Call.guestRun installedProbe]) permissionProbe).isNone <;>
    simp [provisionChain, ActiveCommandChain.Exec, ActiveCommandChain.Add,
      ActiveCommandChain.Stage, Init, execFrom, setupSocketSymlink, setupInVM,
      fixUserPermission, dockerRuntime.guestRestart, forwardingStep_resolved _ _ _ (h5 _),
      createLaunchdScript, provisionSteps, conditionalSteps, h1, h2, h3, h4, h6, h7]

/-- Witness for C1: on a guest where both probes fail and every step succeeds,
`Provision` runs the six steps in order and returns success. -/
theorem Provision_executes_rule_table_witness :
    StepsSucceed (colimaDeps true) (colimaRuntime [] [installedProbe, permissionProbe]) ∧
    (colimaRuntime [] [installedProbe, permissionProbe]).Provision (colimaDeps true) [] =
      (none, [Call.guestRun installedProbe, Call.guestRun permissionProbe,
        Call.setupSocketSymlink, Call.setupInVM, Call.fixUserPermission, Call.guestRestart,
        Call.guestUser, Call.createSocketForwardingScript "user",
        Call.createLaunchdScript "com.abiosoft.colima"]) :=
  ⟨⟨fun _ => rfl, fun _ => rfl, fun _ => rfl, fun _ => rfl, fun _ => rfl, fun _ _ => rfl,
      fun _ _ => rfl⟩,
    (Provision_executes_rule_table (colimaDeps true)
      (colimaRuntime [] [installedProbe, permissionProbe]) []
      ⟨fun _ => rfl, fun _ => rfl, fun _ => rfl, fun _ => rfl, fun _ => rfl, fun _ _ => rfl,
        fun _ _ => rfl⟩).1⟩

/-- C2. Fail-fast for the chains of `Provision`, `Start`, `Stop` and
`Teardown`: when the steps before position `k` of the chain succeed and the
step at position `k` fails with error `e`, the operation returns exactly `e`,
and its outcome is that of running the steps up to position `k` alone, so no
later step is executed. -/
theorem chain_fail_fast (x : Deps) (d : dockerRuntime) (t : Trace)
    (a : ActiveCommandChain) (t0 : Trace) (r : Option GoError × Trace)
    (hop :
      (a = provisionChain x d (d.guest.Run t installedProbe).isNone
            (d.guest.Run (t ++ [Call.guestRun installedProbe]) permissionProbe).isNone ∧
          t0 = t ++ [Call.guestRun installedProbe, Call.guestRun permissionProbe] ∧
          r = d.Provision x t) ∨
      (a = startChain x d ∧ t0 = t ∧ r = d.Start x t) ∨
      (a = stopChain x d ∧ t0 = t ∧ r = d.Stop x t) ∨
      (a = teardownChain x d (descriptorPresent x d t) ∧
          t0 = t ++ [Call.osStat (x.File d.launchd)] ∧ r = d.Teardown x t))
    (k : Nat) (s : Action) (t1 t2 : Trace) (e : GoError)
    (hk : a.funcs[k]? = some s)
    (hpre : execFrom (a.funcs.take k) t0 = (none, t1))
    (hs : s.f t1 = (some e, t2)) :
    r = (some e, t2) ∧ r = execFrom (a.funcs.take (k + 1)) t0 := by
  have hr : r = a.Exec t0 := by
    rcases hop with ⟨ha, ht, hr⟩ | ⟨ha, ht, hr⟩ | ⟨ha, ht, hr⟩ | ⟨ha, ht, hr⟩
    · rw [hr, ha, ht, Provision_eq]
    · rw [hr, ha, ht]; rfl
    · rw [hr, ha, ht]; rfl
    · rw [hr, ha, ht, Teardown_eq]
  have hsplit := split_at_index a.funcs k s hk
  have hfull : a.Exec t0 = (some e, t2) := by
    unfold ActiveCommandChain.Exec
    rw [hsplit]
    exact execFrom_stops _ _ s t0 t1 t2 e hpre hs
  have htake : a.funcs.take (k + 1) = a.funcs.take k ++ s :: [] := by
    rw [List.take_succ, hk]
    rfl
  refine ⟨hr.trans hfull, ?_⟩
  rw [hr, hfull, htake]
  exact (execFrom_stops _ [] s t0 t1 t2 e hpre hs).symm

/-- Witness for C2: on the broken guest the fourth step of the provisioning
chain, the guest restart, fails; `Provision` returns its error and the two
steps after it leave no call in the trace. -/
theorem chain_fail_fast_witness :
    brokenRuntime.Provision (colimaDeps true) [] =
      (some "restart failed", [Call.guestRun installedProbe, Call.guestRun permissionProbe,
        Call.setupSocketSymlink, Call.setupInVM, Call.fixUserPermission, Call.guestRestart]) :=
  (chain_fail_fast (colimaDeps true) brokenRuntime []
    (provisionChain (colimaDeps true) brokenRuntime false false)
    [Call.guestRun installedProbe, Call.guestRun permissionProbe]
    (brokenRuntime.Provision (colimaDeps true) [])
    (Or.inl ⟨rfl, rfl, rfl⟩) 3
    { stage := "restarting VM to complete setup", f := brokenRuntime.guestRestart }
    [Call.guestRun installedProbe, Call.guestRun permissionProbe,
      Call.setupSocketSymlink, Call.setupInVM, Call.fixUserPermission]
    [Call.guestRun installedProbe, Call.guestRun permissionProbe,
      Call.setupSocketSymlink, Call.setupInVM, Call.fixUserPermission, Call.guestRestart]
    "restart failed" rfl rfl rfl).1

/-- A chain whose steps only append calls satisfying `P` only appends such
calls, however far it runs. -/
theorem execFrom_emits (P : Call → Bool) (l : List Action)
    (h : ∀ a ∈ l, Emits P a.f) : Emits P (execFrom l) := by
  induction l with
  | nil => exact fun t => ⟨[], by simp [execFrom]⟩
  | cons a as ih =>
    intro t
    obtain ⟨s1, hs1, hP1⟩ := h a (List.mem_cons_self a as) t
    have ih1 := ih (fun b hb => h b (List.mem_cons_of_mem a hb))
    rcases hf : a.f t with ⟨r, t1⟩
    rw [hf] at hs1
    simp only at hs1
    cases r with
    | some e =>
      refine ⟨s1, ?_, hP1⟩
      simp [execFrom, hf, hs1]
    | none =>
      obtain ⟨s2, hs2, hP2⟩ := ih1 t1
      refine ⟨s1 ++ s2, ?_, ?_⟩
      · subst hs1
        simp [execFrom, hf, hs2]
      · intro c hc
        rcases List.mem_append.mp hc with hc | hc
        · exact hP1 c hc
        · exact hP2 c hc

/-- The forwarding step appends the user query and at most the script call. -/
theorem forwardingStep_emits (x : Deps) (d : dockerRuntime) :
    Emits Call.isProvisionStep (forwardingStep x d) := by
  intro t
  rcases hu : d.guest.User t with ⟨u, e⟩
  cases e with
  | some err =>
    exact ⟨[Call.guestUser], by simp [forwardingStep, dockerRuntime.guestUser, hu],
      by simp [Call.isProvisionStep]⟩
  | none =>
    exact ⟨[Call.guestUser, Call.createSocketForwardingScript u],
      by simp [forwardingStep, dockerRuntime.guestUser, hu, createSocketForwardingScript],
      by simp [Call.isProvisionStep]⟩

/-- Every step of a provisioning chain appends provisioning-step calls only. -/
theorem provisionChain_emits (x : Deps) (d : dockerRuntime) (installed fixed : Bool) :
    ∀ a ∈ (provisionChain x d installed fixed).funcs, Emits Call.isProvisionStep a.f := by
  have e1 : Emits Call.isProvisionStep (setupSocketSymlink x) :=
    fun t => ⟨[Call.setupSocketSymlink], rfl, by simp [Call.isProvisionStep]⟩
  have e2 : Emits Call.isProvisionStep (setupInVM x) :=
    fun t => ⟨[Call.setupInVM], rfl, by simp [Call.isProvisionStep]⟩
  have e3 : Emits Call.isProvisionStep (fixUserPermission x) :=
    fun t => ⟨[Call.fixUserPermission], rfl, by simp [Call.isProvisionStep]⟩
  have e4 : Emits Call.isProvisionStep d.guestRestart :=
    fun t => ⟨[Call.guestRestart], rfl, by simp [Call.isProvisionStep]⟩
  have e5 := forwardingStep_emits x d
  have e6 : Emits Call.isProvisionStep (createLaunchdScript x d.launchd) :=
    fun t => ⟨[Call.createLaunchdScript d.launchd], rfl, by simp [Call.isProvisionStep]⟩
  intro a ha
  cases installed <;> cases fixed <;>
    simp [provisionChain, ActiveCommandChain.Add, ActiveCommandChain.Stage, Init] at ha <;>
    (rcases ha with rfl | rfl | rfl | rfl | rfl | rfl) <;>
    first | exact e1 | exact e2 | exact e3 | exact e4 | exact e5 | exact e6

/-- C10. `Provision` issues the installation probe and then the permission
probe, once each, before any step of the chain runs: its outcome is that of
executing, after the two probe calls, the chain chosen by the two verdicts
`err == nil` alone; the permission probe is answered on the history that holds
the installation probe only; and every call after the two probes is a step of
the chain, never a guest command. -/
theorem Provision_probes_once_before_steps (x : Deps) (d : dockerRuntime) (t : Trace) :
    d.Provision x t =
      (provisionChain x d (d.guest.Run t installedProbe).isNone
        (d.guest.Run (t ++ [Call.guestRun installedProbe]) permissionProbe).isNone).Exec
        (t ++ [Call.guestRun installedProbe, Call.guestRun permissionProbe]) ∧
    ∃ steps, (d.Provision x t).2 =
        t ++ Call.guestRun installedProbe :: Call.guestRun permissionProbe :: steps ∧
      ∀ c ∈ steps, c.isProvisionStep = true ∧ ∀ args, c ≠ Call.guestRun args := by
  refine ⟨Provision_eq x d t, ?_⟩
  obtain ⟨s, hs, hP⟩ := execFrom_emits Call.isProvisionStep _
    (provisionChain_emits x d (d.guest.Run t installedProbe).isNone
      (d.guest.Run (t ++ [Call.guestRun installedProbe]) permissionProbe).isNone)
    (t ++ [Call.guestRun installedProbe, Call.guestRun permissionProbe])
  refine ⟨s, ?_, ?_⟩
  · rw [Provision_eq]
    unfold ActiveCommandChain.Exec
    rw [hs]
    simp
  · intro c hc
    refine ⟨hP c hc, ?_⟩
    intro args hargs
    have := hP c hc
    rw [hargs] at this
    simp [Call.isProvisionStep] at this

/-! ## Stop -/

/-- Counterexample to C3: the status probe returns an error, and `Stop`
issues no `sudo service docker stop`; it goes on to the host unload. -/
theorem Stop_probe_error_skips_stop :
    (colimaRuntime [] [["service", "docker", "status"]]).guest.Run []
        ["service", "docker", "status"] = some "exit status 1" ∧
    stopCall ∉ ((colimaRuntime [] [["service", "docker", "status"]]).Stop (colimaDeps true) []).2 ∧
    (colimaRuntime [] [["service", "docker", "status"]]).Stop (colimaDeps true) [] =
      (none, [statusCall, Call.hostRun
        ["launchctl", "unload", "/Library/LaunchAgents/com.abiosoft.colima.plist"]]) := by
  decide

/-- C3, amended. `Stop` issues the guest command `sudo service docker stop`
exactly when the status probe returns no error.  A probe that returns an
error, whatever its cause, is taken as "already stopped": the stop step makes
no further call and reports success, so the chain goes on to the host unload
and `Stop` returns the result of that unload.  When the probe returns no
error the stop step issues the stop command and reports its result. -/
theorem Stop_issues_stop_iff_probe_ok (x : Deps) (d : dockerRuntime) (t : Trace) :
    (stopCall ∈ (d.Stop x t).2.drop t.length ↔
      d.guest.Run t ["service", "docker", "status"] = none) ∧
    stopStep d t =
      (match d.guest.Run t ["service", "docker", "status"] with
      | some _ => (none, t ++ [statusCall])
      | none => (d.guest.Run (t ++ [statusCall]) ["sudo", "service", "docker", "stop"],
          t ++ [statusCall, stopCall])) ∧
    d.Stop x t =
      (match d.guest.Run t ["service", "docker", "status"] with
      | some _ => (d.host.Run (t ++ [statusCall]) ["launchctl", "unload", x.File d.launchd],
          t ++ [statusCall, unloadCall x d])
      | none =>
        match d.guest.Run (t ++ [statusCall]) ["sudo", "service", "docker", "stop"] with
        | some e => (some e, t ++ [statusCall, stopCall])
        | none =>
          (d.host.Run (t ++ [statusCall, stopCall]) ["launchctl", "unload", x.File d.launchd],
            t ++ [statusCall, stopCall, unloadCall x d])) := by
  refine ⟨?_, ?_, ?_⟩
  · rw [Stop_eq]
    cases d.guest.Run t ["service", "docker", "status"] with
    | some e => simp [statusCall, stopCall, unloadCall]
    | none =>
      cases d.guest.Run (t ++ [statusCall]) ["sudo", "service", "docker", "stop"] <;>
        simp [statusCall, stopCall, unloadCall]
  · simp only [stopStep, dockerRuntime.guestRun, statusCall, stopCall]
    cases d.guest.Run t ["service", "docker", "status"] <;> simp
  · exact Stop_eq x d t

/-- Counterexample to C4: the status probe succeeds, the stop command fails,
and `Stop` returns that failure without issuing `launchctl unload`. -/
theorem Stop_failed_stop_skips_unload :
    unloadCall (colimaDeps true) (colimaRuntime [] [["sudo", "service", "docker", "stop"]]) ∉
      ((colimaRuntime [] [["sudo", "service", "docker", "stop"]]).Stop (colimaDeps true) []).2 ∧
    (colimaRuntime [] [["sudo", "service", "docker", "stop"]]).Stop (colimaDeps true) [] =
      (some "exit status 1", [statusCall, stopCall]) := by
  decide

/-- C4, amended. `Stop` issues the host command `launchctl unload <file>`
unless the stop step fails, that is unless the status probe returned no error
and the stop command then failed; in that case the chain ends there and `Stop`
returns the error of the stop command, otherwise it returns the result of the
unload, which is the last call made. -/
theorem Stop_unloads_unless_stop_fails (x : Deps) (d : dockerRuntime) (t : Trace) :
    (unloadCall x d ∈ (d.Stop x t).2.drop t.length ↔
      ((d.guest.Run t ["service", "docker", "status"]).isNone &&
        (d.guest.Run (t ++ [statusCall]) ["sudo", "service", "docker", "stop"]).isSome) = false) ∧
    (d.Stop x t).1 =
      if ((d.guest.Run t ["service", "docker", "status"]).isNone &&
        (d.guest.Run (t ++ [statusCall]) ["sudo", "service", "docker", "stop"]).isSome) = true
      then d.guest.Run (t ++ [statusCall]) ["sudo", "service", "docker", "stop"]
      else d.host.Run (d.Stop x t).2.dropLast ["launchctl", "unload", x.File d.launchd] := by
  rw [Stop_eq]
  cases d.guest.Run t ["service", "docker", "status"] with
  | some e => simp [statusCall, stopCall, unloadCall, List.dropLast]
  | none =>
    cases d.guest.Run (t ++ [statusCall]) ["sudo", "service", "docker", "stop"] <;>
      simp [statusCall, stopCall, unloadCall, List.dropLast]

/-- C5. When the status probe reports the service stopped, which the code
observes as the probe returning an error, `Stop` issues no stop command: after
the probe it makes one call, the host unload of the descriptor, and returns
exactly the result of that unload. -/
theorem Stop_when_already_stopped (x : Deps) (d : dockerRuntime) (t : Trace) (e : GoError)
    (h : d.guest.Run t ["service", "docker", "status"] = some e) :
    d.Stop x t =
      (d.host.Run (t ++ [statusCall]) ["launchctl", "unload", x.File d.launchd],
        t ++ [statusCall, unloadCall x d]) ∧
    stopCall ∉ (d.Stop x t).2.drop t.length ∧
    ((d.Stop x t).2.drop t.length).count (unloadCall x d) = 1 := by
  rw [Stop_eq, h]
  simp [statusCall, stopCall, unloadCall]

/-- Witness for C5: a guest whose status probe fails and a host whose unload
fails; `Stop` returns the failure of the unload. -/
theorem Stop_when_already_stopped_witness :
    (colimaRuntime [["launchctl", "unload", "/Library/LaunchAgents/com.abiosoft.colima.plist"]]
        [["service", "docker", "status"]]).Stop (colimaDeps true) [] =
      (some "exit status 1",
        [statusCall, Call.hostRun
          ["launchctl", "unload", "/Library/LaunchAgents/com.abiosoft.colima.plist"]]) :=
  (Stop_when_already_stopped (colimaDeps true)
    (colimaRuntime [["launchctl", "unload", "/Library/LaunchAgents/com.abiosoft.colima.plist"]]
      [["service", "docker", "status"]]) [] "exit status 1" rfl).1

/-! ## Start -/

/-- Counterexample to C8: the guest start command fails, and `Start` returns
that failure without attempting `launchctl load`. -/
theorem Start_failed_start_skips_load :
    loadCall (colimaDeps true) (colimaRuntime [] [["sudo", "service", "docker", "start"]]) ∉
      ((colimaRuntime [] [["sudo", "service", "docker", "start"]]).Start (colimaDeps true) []).2 ∧
    (colimaRuntime [] [["sudo", "service", "docker", "start"]]).Start (colimaDeps true) [] =
      (some "exit status 1", [startCall]) := by
  decide

/-- C8, amended. `Start` always issues the guest command
`sudo service docker start` first.  When it fails, `Start` returns its error
and makes no other call; when it succeeds, `Start` then issues the host
command `launchctl load <file>` and returns its result.  The host load never
precedes the guest start. -/
theorem Start_guest_then_host (x : Deps) (d : dockerRuntime) (t : Trace) :
    d.Start x t =
      match d.guest.Run t ["sudo", "service", "docker", "start"] with
      | some e => (some e, t ++ [startCall])
      | none => (d.host.Run (t ++ [startCall]) ["launchctl", "load", x.File d.launchd],
          t ++ [startCall, loadCall x d]) := by
  simp only [dockerRuntime.Start, startChain, ActiveCommandChain.Exec, ActiveCommandChain.Add,
    ActiveCommandChain.Stage, Init, List.nil_append, List.singleton_append, execFrom,
    dockerRuntime.guestRun, dockerRuntime.hostRun, startCall, loadCall]
  cases d.guest.Run t ["sudo", "service", "docker", "start"] with
  | some e => rfl
  | none =>
    simp only [List.append_assoc, List.singleton_append]
    cases d.host.Run (t ++ [Call.guestRun ["sudo", "service", "docker", "start"]])
      ["launchctl", "load", x.File d.launchd] <;> rfl

/-! ## Teardown -/

/-- C7. `Teardown` calls `os.Stat` on the descriptor file and makes no guest
call.  When the file is absent, that is when `os.Stat` answers with an error
or with a directory, it makes no host call and succeeds.  When the file is
present, that is when `os.Stat` answers without error and not with a
directory, and both steps succeed, it makes exactly two host calls,
`launchctl unload <file>` then `rm -rf <file>`, and succeeds. -/
theorem Teardown_host_calls (x : Deps) (d : dockerRuntime) (t : Trace)
    (hunload : x.Stat t (x.File d.launchd) = (false, none) →
      d.host.Run (t ++ [Call.osStat (x.File d.launchd)])
        ["launchctl", "unload", x.File d.launchd] = none)
    (hremove : x.Stat t (x.File d.launchd) = (false, none) →
      d.host.Run (t ++ [Call.osStat (x.File d.launchd), unloadCall x d])
        ["rm", "-rf", x.File d.launchd] = none) :
    d.Teardown x t =
      (none, t ++ Call.osStat (x.File d.launchd) ::
        (match x.Stat t (x.File d.launchd) with
        | (false, none) => [unloadCall x d, removeCall x d]
        | (true, none) => []
        | (_, some _) => [])) ∧
    ((d.Teardown x t).2.drop t.length).filter Call.isHost =
      (match x.Stat t (x.File d.launchd) with
      | (false, none) => [unloadCall x d, removeCall x d]
      | (true, none) => []
      | (_, some _) => []) ∧
    ((d.Teardown x t).2.drop t.length).filter Call.isGuest = [] := by
  rw [Teardown_eq]
  rcases hst : x.Stat t (x.File d.launchd) with ⟨isDir, err⟩
  rw [hst] at hunload hremove
  cases err with
  | some e =>
    simp [descriptorPresent, hst, teardownChain, ActiveCommandChain.Exec, Init,
      ActiveCommandChain.Stage, execFrom, Call.isHost, Call.isGuest]
  | none =>
    cases isDir with
    | true =>
      simp [descriptorPresent, hst, teardownChain, ActiveCommandChain.Exec, Init,
        ActiveCommandChain.Stage, execFrom, Call.isHost, Call.isGuest]
    | false =>
      have h1 := hunload rfl
      have h2 := hremove rfl
      simp only [unloadCall] at h2
      simp [descriptorPresent, hst, teardownChain, ActiveCommandChain.Exec, Init,
        ActiveCommandChain.Stage, ActiveCommandChain.Add, execFrom, dockerRuntime.hostRun,
        h1, h2, unloadCall, removeCall, Call.isHost, Call.isGuest]

/-- Witness for C7: where `os.Stat` finds the descriptor and the host
succeeds, `Teardown` unloads it and removes it; where `os.Stat` reports that
there is no such file, `Teardown` makes the stat call only. -/
theorem Teardown_host_calls_witness :
    ((colimaDeps true).Stat [] "/Library/LaunchAgents/com.abiosoft.colima.plist" =
        (false, none) ∧
      (colimaRuntime [] []).Teardown (colimaDeps true) [] =
        (none, [Call.osStat "/Library/LaunchAgents/com.abiosoft.colima.plist",
          Call.hostRun
            ["launchctl", "unload", "/Library/LaunchAgents/com.abiosoft.colima.plist"],
          Call.hostRun ["rm", "-rf", "/Library/LaunchAgents/com.abiosoft.colima.plist"]])) ∧
    ((colimaDeps false).Stat [] "/Library/LaunchAgents/com.abiosoft.colima.plist" =
        (false, some "no such file or directory") ∧
      (colimaRuntime [] []).Teardown (colimaDeps false) [] =
        (none, [Call.osStat "/Library/LaunchAgents/com.abiosoft.colima.plist"])) :=
  ⟨⟨rfl, (Teardown_host_calls (colimaDeps true) (colimaRuntime [] []) []
      (fun _ => rfl) (fun _ => rfl)).1⟩,
    ⟨rfl, (Teardown_host_calls (colimaDeps false) (colimaRuntime [] []) []
      (fun _ => rfl) (fun _ => rfl)).1⟩⟩

/-! ## Version and the package identifier -/

/-- Counterexample to C6: the version query fails after printing the client
line, and `Version` returns that line, not the empty string. -/
theorem Version_failure_keeps_text :
    (truncatedVersionRuntime.host.RunOutput [] versionQuery).2 = some "exit status 1" ∧
    (truncatedVersionRuntime.Version []).1 = "client: v20.10.8" ∧
    (truncatedVersionRuntime.Version []).1 ≠ "" := by
  decide

/-- C6, amended. `Version` never fails: it returns exactly the text that
`host.RunOutput` returned and discards the error, so on a failed query the
result is empty exactly when the host returned empty text with the failure. -/
theorem Version_returns_query_text (d : dockerRuntime) (t : Trace) :
    d.Version t =
      ((d.host.RunOutput t versionQuery).1, t ++ [Call.hostRunOutput versionQuery]) ∧
    ((d.Version t).1 = "" ↔ (d.host.RunOutput t versionQuery).1 = "") := by
  constructor <;> rfl

/-- Counterexample to C9: for the application `colima` the identifier is
`com.abiosoft.colima`; the runtime name is not part of it. -/
theorem launchd_package_lacks_runtime_name :
    (newRuntime (colimaDeps true) (hostFailingOn [] "") (guestFailingOn [])).launchd =
      "com.abiosoft.colima" ∧
    (newRuntime (colimaDeps true) (hostFailingOn [] "") (guestFailingOn [])).launchd ≠
      "com.abiosoft." ++ (colimaDeps true).AppName ++ "." ++ Name := by
  decide

/-- C9, amended. The package identifier built by `newRuntime` is the fixed
prefix `com.abiosoft.` followed by the application name and nothing else; the
runtime name is not a component of it.  It depends on the application name
alone: not on the host, the guest or any other dependency. -/
theorem launchd_package_of_app_name (x y : Deps) (host host2 : HostActions)
    (guest guest2 : GuestActions) :
    (newRuntime x host guest).launchd = "com.abiosoft." ++ x.AppName ∧
    ((newRuntime x host guest).launchd = (newRuntime y host2 guest2).launchd ↔
      x.AppName = y.AppName) := by
  refine ⟨rfl, ?_⟩
  simp only [newRuntime]
  constructor
  · intro h
    have := congrArg String.data h
    exact String.ext (by simpa [String.data_append] using this)
  · intro h
    rw [h]

end Docker
